import Mathlib

/-!
Shallow embedding of the ART Applanix odometry driver
(`src/stacks/art_vehicle/applanix/src/odometry.cc`).

Modelling choices:

* C `double` values are modelled exactly: coordinates, speeds and the raw
  degree-valued angle fields of a sample are rationals (`ℚ`); the converted
  radian-valued angles, which involve `π`, are real numbers (`ℝ`).
* `ros::Time` is a natural number; a default-constructed `ros::Time` is `0`.
* The static locals of `GlobalToLocal` (`map_origin`, `first_pose_received`)
  and of `getNewData` (`last_time`), and the global `adata`, become explicit
  state threaded through the functions.
* The Applanix device interface is modelled as the list of packets queued for
  one polling cycle: `get_packet` succeeds once per list element, in order,
  and fails when the list is exhausted.
* The UTM projection (`art/UTM.h`) is an external pure function and is taken
  as a parameter of `getOdom`.
* `angles::from_degrees` and `angles::normalize_angle` come from the external
  ROS `angles` package: `from_degrees d = d * π / 180`, and `normalize_angle`
  returns the unique representative in `(-π, π]` of its argument modulo `2π`.
* Publishing a message is modelled by returning the message value; `getOdom`
  returns the `GpsInfo` record it publishes (if any) next to its boolean
  "publish odometry" result.
-/

open Real

/-- Transmission gear, mirroring the `art_servo::Shifter` gear constants
read by the driver (`shifter_gear_`). -/
inductive Gear
  | Park
  | Reverse
  | Neutral
  | Drive
deriving DecidableEq

/-- Applanix alignment status (`applanix/applanix_info.h`); the spec fixes the
domain to the three values used by the driver. -/
inductive ApplStatus
  | Invalid
  | Fine
  | Full
deriving DecidableEq

/-- GPS fix quality constants of the `applanix/GpsInfo` message. -/
inductive GpsQuality
  | INVALID_FIX
  | GPS_FIX
  | DGPS_FIX
deriving DecidableEq

/-- The group-1 navigation solution fields of an Applanix data packet that the
driver reads (`adata.grp1.*`).  Angles are in degrees, as delivered by the
device. -/
structure grp1_t where
  lat : ℚ
  lon : ℚ
  alt : ℚ
  heading : ℚ
  roll : ℚ
  pitch : ℚ
  speed : ℚ
  vel_down : ℚ
  arate_lon : ℚ
  arate_trans : ℚ
  arate_down : ℚ
  alignment : ApplStatus
deriving DecidableEq

/-- A saved Applanix data packet (`applanix_data_t`): timestamp plus the
group-1 fields used by this driver. -/
structure applanix_data_t where
  time : ℕ
  grp1 : grp1_t
deriving DecidableEq

/-- `Position::Pose3D` (`art/Position.h`): position in meters and orientation
in radians. -/
structure Pose3D where
  x : ℚ
  y : ℚ
  z : ℚ
  roll : ℝ
  pitch : ℝ
  yaw : ℝ

/-- `Position::Position3D`: a pose and a velocity. -/
structure Position3D where
  pos : Pose3D
  vel : Pose3D

/-- The `applanix/GpsInfo` message fields filled by `publishGPS` (the constant
frame id string is omitted). -/
structure GpsInfo where
  stamp : ℕ
  latitude : ℚ
  longitude : ℚ
  altitude : ℚ
  utm_e : ℚ
  utm_n : ℚ
  quality : GpsQuality

/-- The C library function `rint` on exact rationals: round to the nearest
integer, ties to even (the default IEEE rounding direction). -/
def rint (q : ℚ) : ℤ :=
  if q - ⌊q⌋ < 1/2 then ⌊q⌋
  else if 1/2 < q - ⌊q⌋ then ⌊q⌋ + 1
  else if 2 ∣ ⌊q⌋ then ⌊q⌋ else ⌊q⌋ + 1

/-- `angles::from_degrees` (external ROS `angles` package) applied to an exact
degree value. -/
noncomputable def from_degrees (d : ℚ) : ℝ := (d : ℝ) * π / 180

/-- `angles::normalize_angle` (external ROS `angles` package): the unique
angle in `(-π, π]` equal to the input modulo `2π`. -/
noncomputable def normalize_angle (a : ℝ) : ℝ :=
  a - 2 * π * ⌈(a - π) / (2 * π)⌉

/-- The static local state of `GlobalToLocal`: the map origin and whether the
first pose has been received. -/
structure GtlState where
  map_origin : Pose3D
  first_pose_received : Bool

/-- The 10 km grid used to snap the map origin (`origin_grid` in
`GlobalToLocal`). -/
def origin_grid : ℚ := 10000

/-- `GlobalToLocal` (odometry.cc lines 82-132).  On the first call it sets
`map_origin` to the current pose with `x` and `y` snapped to the 10 km grid by
`rint` and `z` left alone; every call subtracts the origin componentwise from
the position fields, leaving roll, pitch and yaw untouched.  Returns the
translated pose, the `initial_pose` flag (the C return value) and the updated
static state. -/
def GlobalToLocal (st : GtlState) (current : Pose3D) : (Pose3D × Bool) × GtlState :=
  let initial_pose := !st.first_pose_received
  let st' : GtlState :=
    if initial_pose then
      { map_origin :=
          { current with
            x := (rint (current.x / origin_grid) : ℚ) * origin_grid,
            y := (rint (current.y / origin_grid) : ℚ) * origin_grid },
        first_pose_received := true }
    else st
  (({ current with
      x := current.x - st'.map_origin.x,
      y := current.y - st'.map_origin.y,
      z := current.z - st'.map_origin.z },
    initial_pose), st')

/-- `getNewData` (odometry.cc lines 140-172).  `pkts` is the queue of packets
the device returns this cycle; the first `get_packet` fails iff it is empty,
and the drain loop keeps overwriting `adata` so the last element wins.  The
result is the C boolean return value, the updated `last_time` static, and the
updated global `adata`. -/
def getNewData (last_time : ℕ) (adata : applanix_data_t)
    (pkts : List applanix_data_t) : Bool × ℕ × applanix_data_t :=
  match pkts with
  | [] => (false, last_time, adata)
  | p :: rest =>
    let a := rest.foldl (fun _ pkt => pkt) p
    if a.time = last_time then (false, last_time, a)
    else if a.grp1.alignment = ApplStatus.Invalid then (false, last_time, a)
    else (true, a.time, a)

/-- `publishGPS` (odometry.cc lines 175-202): builds the `GpsInfo` message
from the saved packet and the projected UTM coordinates; the alignment status
is mapped to a fix quality with `Invalid` (and anything unrecognised) as the
default branch. -/
def publishGPS (adata : applanix_data_t) (utm_e utm_n : ℚ) : GpsInfo :=
  { stamp := adata.time,
    latitude := adata.grp1.lat,
    longitude := adata.grp1.lon,
    altitude := adata.grp1.alt,
    utm_e := utm_e,
    utm_n := utm_n,
    quality :=
      match adata.grp1.alignment with
      | ApplStatus.Full => GpsQuality.DGPS_FIX
      | ApplStatus.Fine => GpsQuality.GPS_FIX
      | _ => GpsQuality.INVALID_FIX }

/-- The driver state touched by `getOdom`: the global `adata`, the `last_time`
static of `getNewData` and the static state of `GlobalToLocal`. -/
structure DriverState where
  adata : applanix_data_t
  last_time : ℕ
  gtl : GtlState

/-- Everything `getOdom` produces in one cycle: its boolean return value
(publish odometry or not), the updated in-out `odom_pos3d` and `odom_time`
arguments, the `GpsInfo` record it published (if any), and the updated driver
state. -/
structure OdomResult where
  publish : Bool
  odom_pos3d : Position3D
  odom_time : ℕ
  gps : Option GpsInfo
  st : DriverState

/-- `getOdom` (odometry.cc lines 217-273).  `utm` is the external UTM
projection from (lat, lon) to (easting, northing).  On no new data it returns
without publishing anything; otherwise it publishes the GPS record, fills the
position and orientation, runs `GlobalToLocal`, and suppresses the odometry
(returning false) on the initial pose; on later cycles it also fills the
velocity, negating the forward speed in reverse gear. -/
noncomputable def getOdom (utm : ℚ → ℚ → ℚ × ℚ) (shifter_gear : Gear)
    (st : DriverState) (pkts : List applanix_data_t)
    (odom_pos3d : Position3D) (odom_time : ℕ) : OdomResult :=
  let gnd := getNewData st.last_time st.adata pkts
  if gnd.1 = false then
    { publish := false, odom_pos3d := odom_pos3d, odom_time := odom_time,
      gps := none,
      st := { adata := gnd.2.2, last_time := gnd.2.1, gtl := st.gtl } }
  else
    let a := gnd.2.2
    let e_n := utm a.grp1.lat a.grp1.lon
    let gpsi := publishGPS a e_n.1 e_n.2
    let pos1 : Pose3D :=
      { x := e_n.1, y := e_n.2, z := a.grp1.alt,
        roll := from_degrees a.grp1.roll,
        pitch := from_degrees (-a.grp1.pitch),
        yaw := normalize_angle (from_degrees (90 - a.grp1.heading)) }
    let gl := GlobalToLocal st.gtl pos1
    let st' : DriverState := { adata := a, last_time := gnd.2.1, gtl := gl.2 }
    if gl.1.2 = true then
      { publish := false, odom_pos3d := { odom_pos3d with pos := gl.1.1 },
        odom_time := a.time, gps := some gpsi, st := st' }
    else
      let speed := if shifter_gear = Gear.Reverse then -a.grp1.speed
                   else a.grp1.speed
      { publish := true,
        odom_pos3d :=
          { pos := gl.1.1,
            vel :=
              { x := speed, y := 0, z := -a.grp1.vel_down,
                roll := from_degrees a.grp1.arate_lon,
                pitch := from_degrees (-a.grp1.arate_trans),
                yaw := from_degrees (-a.grp1.arate_down) } },
        odom_time := a.time, gps := some gpsi, st := st' }

/-- The all-zero pose, the value of a default-constructed `Position::Pose3D`. -/
noncomputable def zeroPose : Pose3D :=
  { x := 0, y := 0, z := 0, roll := 0, pitch := 0, yaw := 0 }

/-- The initial `GlobalToLocal` state: no pose received yet. -/
noncomputable def initGtl : GtlState :=
  { map_origin := zeroPose, first_pose_received := false }

/-- The zeroed initial packet buffer set up in `main` (memset to zero, then
`alignment = ApplStatusInvalid`). -/
def adata0 : applanix_data_t :=
  { time := 0,
    grp1 := { lat := 0, lon := 0, alt := 0, heading := 0, roll := 0,
              pitch := 0, speed := 0, vel_down := 0, arate_lon := 0,
              arate_trans := 0, arate_down := 0,
              alignment := ApplStatus.Invalid } }

/-- The driver state at process start. -/
noncomputable def st0 : DriverState :=
  { adata := adata0, last_time := 0, gtl := initGtl }

/-- A driver state that has already accepted a first sample
(`first_pose_received` is set). -/
noncomputable def stT : DriverState :=
  { adata := adata0, last_time := 0,
    gtl := { map_origin := zeroPose, first_pose_received := true } }

/-- A concrete valid sample used to instantiate the theorems. -/
def samplePkt : applanix_data_t :=
  { time := 1,
    grp1 := { lat := 3, lon := 4, alt := 5, heading := 0, roll := 6,
              pitch := 7, speed := 5, vel_down := 8, arate_lon := 9,
              arate_trans := 10, arate_down := 11,
              alignment := ApplStatus.Fine } }

/-- A trivial concrete stand-in for the external UTM projection. -/
def utm0 : ℚ → ℚ → ℚ × ℚ := fun la lo => (la, lo)

/-- The zero `Position3D` used as the initial in-out odometry argument. -/
noncomputable def pose0 : Position3D := { pos := zeroPose, vel := zeroPose }

/-! ## Helper lemmas -/

/-- `normalize_angle` always lands in the canonical range `(-π, π]`. -/
lemma normalize_angle_mem_Ioc (a : ℝ) : normalize_angle a ∈ Set.Ioc (-π) π := by
  unfold normalize_angle
  have hpos : (0:ℝ) < 2 * π := by positivity
  have hk : ((⌈(a - π) / (2 * π)⌉ : ℝ)) < (a - π) / (2 * π) + 1 :=
    Int.ceil_lt_add_one _
  have hk' : a - π ≤ ((⌈(a - π) / (2 * π)⌉ : ℝ)) * (2 * π) :=
    (div_le_iff₀ hpos).mp (Int.le_ceil _)
  constructor
  · have h1 : ((⌈(a - π) / (2 * π)⌉ : ℝ)) - 1 < (a - π) / (2 * π) := by linarith
    have h2 : (((⌈(a - π) / (2 * π)⌉ : ℝ)) - 1) * (2 * π) < a - π :=
      (lt_div_iff₀ hpos).mp h1
    nlinarith
  · nlinarith

/-- Inside the canonical range `normalize_angle` is the identity. -/
lemma normalize_angle_eq_self (a : ℝ) (h1 : -π < a) (h2 : a ≤ π) :
    normalize_angle a = a := by
  unfold normalize_angle
  have hpos : (0:ℝ) < 2 * π := by positivity
  have hc : ⌈(a - π) / (2 * π)⌉ = 0 := by
    rw [Int.ceil_eq_iff]
    constructor
    · push_cast
      rw [lt_div_iff₀ hpos]
      nlinarith
    · push_cast
      apply div_nonpos_of_nonpos_of_nonneg
      · linarith
      · positivity
  rw [hc]
  push_cast
  ring

lemma from_degrees_90 : from_degrees 90 = π / 2 := by
  unfold from_degrees
  push_cast
  ring

lemma from_degrees_zero : from_degrees 0 = 0 := by
  unfold from_degrees
  push_cast
  ring

/-- The drain loop of `getNewData` keeps the last queued packet. -/
lemma foldl_keep_last {α : Type} (rest : List α) (p : α) :
    some (rest.foldl (fun _ x => x) p) = (p :: rest).getLast? := by
  induction rest generalizing p with
  | nil => rfl
  | cons q rs ih =>
    rw [List.getLast?_cons_cons]
    exact ih q

/-- An accepted cycle records the accepted packet's timestamp as `last_time`. -/
lemma getNewData_accept_time (lt : ℕ) (a0 : applanix_data_t)
    (pkts : List applanix_data_t)
    (h : (getNewData lt a0 pkts).1 = true) :
    (getNewData lt a0 pkts).2.1 = (getNewData lt a0 pkts).2.2.time := by
  cases pkts with
  | nil => simp [getNewData] at h
  | cons p rest =>
    simp only [getNewData] at h ⊢
    split_ifs at h ⊢
    all_goals simp_all

/-- An accepted cycle's packet never has Invalid alignment. -/
lemma getNewData_accept_alignment (lt : ℕ) (a0 : applanix_data_t)
    (pkts : List applanix_data_t)
    (h : (getNewData lt a0 pkts).1 = true) :
    (getNewData lt a0 pkts).2.2.grp1.alignment ≠ ApplStatus.Invalid := by
  cases pkts with
  | nil => simp [getNewData] at h
  | cons p rest =>
    simp only [getNewData] at h ⊢
    split_ifs at h ⊢
    all_goals simp_all

/-- `GlobalToLocal` returns `initial_pose = true` iff no pose was received. -/
lemma GlobalToLocal_flag (st : GtlState) (c : Pose3D) :
    (GlobalToLocal st c).1.2 = !st.first_pose_received := rfl

/-- `GlobalToLocal` never touches the orientation fields of the pose. -/
lemma GlobalToLocal_preserves_angles (st : GtlState) (c : Pose3D) :
    (GlobalToLocal st c).1.1.roll = c.roll ∧
    (GlobalToLocal st c).1.1.pitch = c.pitch ∧
    (GlobalToLocal st c).1.1.yaw = c.yaw :=
  ⟨rfl, rfl, rfl⟩

/-! ## Claim theorems -/

/-- C2: On the very first accepted sample (`first_pose_received` still false),
the map origin is set to (rint(easting/10000)·10000, rint(northing/10000)·10000,
altitude): horizontal components snapped to the 10,000 m grid, z unsnapped,
and the call reports the initial pose. -/
theorem GlobalToLocal_origin_snap (st : GtlState) (c : Pose3D)
    (h : st.first_pose_received = false) :
    ((GlobalToLocal st c).2).map_origin.x = (rint (c.x / 10000) : ℚ) * 10000 ∧
    ((GlobalToLocal st c).2).map_origin.y = (rint (c.y / 10000) : ℚ) * 10000 ∧
    ((GlobalToLocal st c).2).map_origin.z = c.z ∧
    (GlobalToLocal st c).1.2 = true := by
  simp [GlobalToLocal, h, origin_grid]

/-- C2 witness: projected coordinates (12345, 67890) produce the snapped
origin (10000, 70000) with the altitude kept as-is. -/
theorem GlobalToLocal_origin_snap_witness :
    initGtl.first_pose_received = false ∧
    ((GlobalToLocal initGtl
        { x := 12345, y := 67890, z := 7, roll := 0, pitch := 0, yaw := 0 }).2).map_origin.x
      = 10000 ∧
    ((GlobalToLocal initGtl
        { x := 12345, y := 67890, z := 7, roll := 0, pitch := 0, yaw := 0 }).2).map_origin.y
      = 70000 ∧
    ((GlobalToLocal initGtl
        { x := 12345, y := 67890, z := 7, roll := 0, pitch := 0, yaw := 0 }).2).map_origin.z
      = 7 := by
  have h := GlobalToLocal_origin_snap initGtl
    { x := 12345, y := 67890, z := 7, roll := 0, pitch := 0, yaw := 0 } rfl
  have hfx : ⌊((12345:ℚ)/10000)⌋ = 1 := by
    rw [Int.floor_eq_iff]
    norm_num
  have hfy : ⌊((67890:ℚ)/10000)⌋ = 6 := by
    rw [Int.floor_eq_iff]
    norm_num
  have hrx : rint ((12345:ℚ)/10000) = 1 := by
    unfold rint
    rw [hfx]
    norm_num
  have hry : rint ((67890:ℚ)/10000) = 7 := by
    unfold rint
    rw [hfy]
    norm_num
  refine ⟨rfl, ?_, ?_, h.2.2.1⟩
  · rw [h.1]
    show ((rint ((12345:ℚ)/10000) : ℚ)) * 10000 = 10000
    rw [hrx]
    norm_num
  · rw [h.2.1]
    show ((rint ((67890:ℚ)/10000) : ℚ)) * 10000 = 70000
    rw [hry]
    norm_num

/-- C7: with an already initialized origin, the difference of two normalized
positions equals the raw difference of the two input positions, componentwise. -/
theorem GlobalToLocal_translation_invariance (st : GtlState) (s1 s2 : Pose3D)
    (h : st.first_pose_received = true) :
    (GlobalToLocal st s1).1.1.x - (GlobalToLocal st s2).1.1.x = s1.x - s2.x ∧
    (GlobalToLocal st s1).1.1.y - (GlobalToLocal st s2).1.1.y = s1.y - s2.y ∧
    (GlobalToLocal st s1).1.1.z - (GlobalToLocal st s2).1.1.z = s1.z - s2.z := by
  simp [GlobalToLocal, h]

/-- C7 witness: concrete instantiation of translation invariance. -/
theorem GlobalToLocal_translation_invariance_witness :
    stT.gtl.first_pose_received = true ∧
    (GlobalToLocal stT.gtl
        { x := 11, y := 22, z := 33, roll := 0, pitch := 0, yaw := 0 }).1.1.x -
      (GlobalToLocal stT.gtl
        { x := 4, y := 5, z := 6, roll := 0, pitch := 0, yaw := 0 }).1.1.x = 7 := by
  refine ⟨rfl, ?_⟩
  have h := GlobalToLocal_translation_invariance stT.gtl
    { x := 11, y := 22, z := 33, roll := 0, pitch := 0, yaw := 0 }
    { x := 4, y := 5, z := 6, roll := 0, pitch := 0, yaw := 0 } rfl
  rw [h.1]
  norm_num

/-- C8: the origin is created on the first call (every call leaves
`first_pose_received` set), and once `first_pose_received` is set a call
returns the state completely unchanged and merely subtracts the stored origin
from the input position. -/
theorem GlobalToLocal_origin_immutable :
    (∀ (st : GtlState) (c : Pose3D),
      ((GlobalToLocal st c).2).first_pose_received = true) ∧
    (∀ (st : GtlState) (c : Pose3D), st.first_pose_received = true →
      (GlobalToLocal st c).2 = st ∧
      (GlobalToLocal st c).1.1.x = c.x - st.map_origin.x ∧
      (GlobalToLocal st c).1.1.y = c.y - st.map_origin.y ∧
      (GlobalToLocal st c).1.1.z = c.z - st.map_origin.z) := by
  constructor
  · intro st c
    by_cases h : st.first_pose_received <;> simp [GlobalToLocal, h]
  · intro st c h
    simp [GlobalToLocal, h]

/-- C8 witness: concrete instantiation of origin immutability. -/
theorem GlobalToLocal_origin_immutable_witness :
    stT.gtl.first_pose_received = true ∧
    ((GlobalToLocal stT.gtl
        { x := 1, y := 2, z := 3, roll := 0, pitch := 0, yaw := 0 }).2).first_pose_received
      = true ∧
    (GlobalToLocal stT.gtl
        { x := 1, y := 2, z := 3, roll := 0, pitch := 0, yaw := 0 }).2 = stT.gtl := by
  refine ⟨rfl, GlobalToLocal_origin_immutable.1 stT.gtl _, ?_⟩
  exact (GlobalToLocal_origin_immutable.2 stT.gtl
    { x := 1, y := 2, z := 3, roll := 0, pitch := 0, yaw := 0 } rfl).1

/-- C3: if a cycle accepts a sample, a following cycle whose newest drained
sample carries the very same timestamp returns no new data. -/
theorem getNewData_duplicate_timestamp (lt : ℕ) (a0 : applanix_data_t)
    (p1 p2 : List applanix_data_t) (s2 : applanix_data_t)
    (h1 : (getNewData lt a0 p1).1 = true)
    (h2 : p2.getLast? = some s2)
    (h3 : s2.time = (getNewData lt a0 p1).2.2.time) :
    (getNewData ((getNewData lt a0 p1).2.1) ((getNewData lt a0 p1).2.2) p2).1
      = false := by
  have htime := getNewData_accept_time lt a0 p1 h1
  set g1 := getNewData lt a0 p1 with hg1
  cases p2 with
  | nil => simp at h2
  | cons q rs =>
    have hdrain : rs.foldl (fun _ pkt => pkt) q = s2 := by
      have := foldl_keep_last rs q
      rw [h2] at this
      exact Option.some.inj this
    show (getNewData g1.2.1 g1.2.2 (q :: rs)).1 = false
    simp only [getNewData, hdrain]
    rw [if_pos (show s2.time = g1.2.1 by rw [h3, htime])]

/-- C3 witness: the same timestamp fed on two consecutive cycles is rejected
on the second one. -/
theorem getNewData_duplicate_timestamp_witness :
    (getNewData 0 adata0 [samplePkt]).1 = true ∧
    (getNewData ((getNewData 0 adata0 [samplePkt]).2.1)
        ((getNewData 0 adata0 [samplePkt]).2.2) [samplePkt]).1 = false := by
  refine ⟨by decide, ?_⟩
  exact getNewData_duplicate_timestamp 0 adata0 [samplePkt] [samplePkt] samplePkt
    (by decide) rfl (by decide)

/-- C4: a cycle whose newest drained sample has Invalid alignment returns no
new data, whatever its timestamp. -/
theorem getNewData_invalid_alignment (lt : ℕ) (a0 : applanix_data_t)
    (pkts : List applanix_data_t) (s : applanix_data_t)
    (h1 : pkts.getLast? = some s)
    (h2 : s.grp1.alignment = ApplStatus.Invalid) :
    (getNewData lt a0 pkts).1 = false := by
  cases pkts with
  | nil => simp at h1
  | cons q rs =>
    have hdrain : rs.foldl (fun _ pkt => pkt) q = s := by
      have := foldl_keep_last rs q
      rw [h1] at this
      exact Option.some.inj this
    simp only [getNewData, hdrain]
    split_ifs with ht
    · rfl
    · rfl

/-- C4 witness: an Invalid-alignment sample with a fresh timestamp (time 1,
previous accepted time 0) is still rejected. -/
theorem getNewData_invalid_alignment_witness :
    [{ samplePkt with
        grp1 := { samplePkt.grp1 with alignment := ApplStatus.Invalid } }].getLast?
      = some { samplePkt with
          grp1 := { samplePkt.grp1 with alignment := ApplStatus.Invalid } } ∧
    ({ samplePkt with
        grp1 := { samplePkt.grp1 with alignment := ApplStatus.Invalid } }).time ≠ 0 ∧
    (getNewData 0 adata0
        [{ samplePkt with
            grp1 := { samplePkt.grp1 with alignment := ApplStatus.Invalid } }]).1
      = false := by
  refine ⟨rfl, by decide, ?_⟩
  exact getNewData_invalid_alignment 0 adata0 _ _ rfl rfl

/-- C10: `last_time` is only updated on accepted cycles: any rejected cycle
returns it unchanged, and a sample whose timestamp was previously seen only on
a rejected Invalid-alignment sample is afterwards accepted, not treated as a
duplicate. -/
theorem getNewData_last_time_update :
    (∀ (lt : ℕ) (a0 : applanix_data_t) (pkts : List applanix_data_t),
      (getNewData lt a0 pkts).1 = false → (getNewData lt a0 pkts).2.1 = lt) ∧
    (∀ (lt : ℕ) (a0 s1 s2 : applanix_data_t),
      s1.grp1.alignment = ApplStatus.Invalid →
      s2.time = s1.time →
      s2.grp1.alignment ≠ ApplStatus.Invalid →
      s2.time ≠ lt →
      (getNewData lt a0 [s1]).1 = false ∧
      (getNewData lt a0 [s1]).2.1 = lt ∧
      (getNewData lt ((getNewData lt a0 [s1]).2.2) [s2]).1 = true) := by
  have hkeep : ∀ (lt : ℕ) (a0 : applanix_data_t) (pkts : List applanix_data_t),
      (getNewData lt a0 pkts).1 = false → (getNewData lt a0 pkts).2.1 = lt := by
    intro lt a0 pkts h
    cases pkts with
    | nil => rfl
    | cons q rs =>
      simp only [getNewData] at h ⊢
      split_ifs at h ⊢
      all_goals simp_all
  refine ⟨hkeep, ?_⟩
  intro lt a0 s1 s2 hinv htime hval hfresh
  have hrej : (getNewData lt a0 [s1]).1 = false := by
    simp only [getNewData, List.foldl]
    split_ifs with ht
    · rfl
    · rfl
  refine ⟨hrej, hkeep lt a0 [s1] hrej, ?_⟩
  simp only [getNewData, List.foldl]
  rw [if_neg, if_neg]
  · exact hval
  · rw [htime] at hfresh
    rw [htime]
    exact hfresh

/-- C10 witness: an Invalid sample at time 1 is rejected leaving `last_time`
at 0; a valid sample at the same time 1 is then accepted. -/
theorem getNewData_last_time_update_witness :
    (getNewData 0 adata0
        [{ samplePkt with
            grp1 := { samplePkt.grp1 with alignment := ApplStatus.Invalid } }]).1
      = false ∧
    (getNewData 0 adata0
        [{ samplePkt with
            grp1 := { samplePkt.grp1 with alignment := ApplStatus.Invalid } }]).2.1
      = 0 ∧
    (getNewData 0
        ((getNewData 0 adata0
            [{ samplePkt with
                grp1 := { samplePkt.grp1 with alignment := ApplStatus.Invalid } }]).2.2)
        [samplePkt]).1 = true := by
  exact getNewData_last_time_update.2 0 adata0
    { samplePkt with
        grp1 := { samplePkt.grp1 with alignment := ApplStatus.Invalid } }
    samplePkt rfl rfl (by decide) (by decide)

/-- C1 counterexample: on the very first accepted cycle the driver suppresses
the odometry record but still publishes the GPS-quality record, because
`publishGPS` runs before the `GlobalToLocal` initial-pose check. -/
theorem getOdom_first_cycle_gps_published :
    (getOdom utm0 Gear.Drive st0 [samplePkt] pose0 0).publish = false ∧
    ((getOdom utm0 Gear.Drive st0 [samplePkt] pose0 0).gps).isSome = true := by
  constructor
  · rfl
  · rfl

/-- C1 (amended): on every accepted cycle the GPS-quality record is published;
the combined Pose3D+Velocity3D record alone is suppressed on the first
accepted cycle and published on subsequent accepted cycles. -/
theorem getOdom_publish_behavior (utm : ℚ → ℚ → ℚ × ℚ) (gear : Gear)
    (st : DriverState) (pkts : List applanix_data_t)
    (p0 : Position3D) (t0 : ℕ)
    (hacc : (getNewData st.last_time st.adata pkts).1 = true) :
    ((getOdom utm gear st pkts p0 t0).gps).isSome = true ∧
    (st.gtl.first_pose_received = false →
      (getOdom utm gear st pkts p0 t0).publish = false) ∧
    (st.gtl.first_pose_received = true →
      (getOdom utm gear st pkts p0 t0).publish = true) := by
  refine ⟨?_, ?_, ?_⟩
  · simp only [getOdom]
    rw [if_neg (by simp [hacc])]
    split_ifs <;> rfl
  · intro hfp
    simp [getOdom, hacc, GlobalToLocal_flag, hfp]
  · intro hfp
    simp [getOdom, hacc, GlobalToLocal_flag, hfp]

/-- C1 witness: concrete first accepted cycle (GPS out, odometry suppressed)
and concrete later accepted cycle (odometry published). -/
theorem getOdom_publish_behavior_witness :
    (getNewData st0.last_time st0.adata [samplePkt]).1 = true ∧
    st0.gtl.first_pose_received = false ∧
    (getOdom utm0 Gear.Drive st0 [samplePkt] pose0 0).publish = false ∧
    ((getOdom utm0 Gear.Drive st0 [samplePkt] pose0 0).gps).isSome = true ∧
    stT.gtl.first_pose_received = true ∧
    (getOdom utm0 Gear.Drive stT [samplePkt] pose0 0).publish = true := by
  have hacc0 : (getNewData st0.last_time st0.adata [samplePkt]).1 = true := rfl
  have haccT : (getNewData stT.last_time stT.adata [samplePkt]).1 = true := rfl
  have h0 := getOdom_publish_behavior utm0 Gear.Drive st0 [samplePkt] pose0 0 hacc0
  have hT := getOdom_publish_behavior utm0 Gear.Drive stT [samplePkt] pose0 0 haccT
  exact ⟨hacc0, rfl, h0.2.1 rfl, h0.1, rfl, hT.2.2 rfl⟩

/-- C5: on an accepted, non-initial cycle the published linear velocity is
x = forward speed negated exactly in reverse gear, y = 0, and z = minus the
sample's downward velocity. -/
theorem getOdom_linear_velocity (utm : ℚ → ℚ → ℚ × ℚ) (gear : Gear)
    (st : DriverState) (pkts : List applanix_data_t)
    (p0 : Position3D) (t0 : ℕ)
    (hacc : (getNewData st.last_time st.adata pkts).1 = true)
    (hfp : st.gtl.first_pose_received = true) :
    (getOdom utm gear st pkts p0 t0).odom_pos3d.vel.x =
      (if gear = Gear.Reverse
        then -((getNewData st.last_time st.adata pkts).2.2.grp1.speed)
        else (getNewData st.last_time st.adata pkts).2.2.grp1.speed) ∧
    (getOdom utm gear st pkts p0 t0).odom_pos3d.vel.y = 0 ∧
    (getOdom utm gear st pkts p0 t0).odom_pos3d.vel.z =
      -((getNewData st.last_time st.adata pkts).2.2.grp1.vel_down) := by
  refine ⟨?_, ?_, ?_⟩ <;> simp [getOdom, hacc, GlobalToLocal_flag, hfp]

/-- C5 witness: forward speed 5 gives x = -5 in reverse and x = +5 in drive;
downward velocity 8 gives z = -8 and y = 0. -/
theorem getOdom_linear_velocity_witness :
    (getNewData stT.last_time stT.adata [samplePkt]).1 = true ∧
    stT.gtl.first_pose_received = true ∧
    (getOdom utm0 Gear.Reverse stT [samplePkt] pose0 0).odom_pos3d.vel.x = -5 ∧
    (getOdom utm0 Gear.Drive stT [samplePkt] pose0 0).odom_pos3d.vel.x = 5 ∧
    (getOdom utm0 Gear.Drive stT [samplePkt] pose0 0).odom_pos3d.vel.y = 0 ∧
    (getOdom utm0 Gear.Drive stT [samplePkt] pose0 0).odom_pos3d.vel.z = -8 := by
  have hacc : (getNewData stT.last_time stT.adata [samplePkt]).1 = true := rfl
  have hR := getOdom_linear_velocity utm0 Gear.Reverse stT [samplePkt] pose0 0 hacc rfl
  have hD := getOdom_linear_velocity utm0 Gear.Drive stT [samplePkt] pose0 0 hacc rfl
  have hspeed : (getNewData stT.last_time stT.adata [samplePkt]).2.2.grp1.speed = 5 := rfl
  have hvd : (getNewData stT.last_time stT.adata [samplePkt]).2.2.grp1.vel_down = 8 := rfl
  refine ⟨hacc, rfl, ?_, ?_, hD.2.1, ?_⟩
  · rw [hR.1, hspeed]
    simp
  · rw [hD.1, hspeed]
    simp
  · rw [hD.2.2, hvd]

/-- C6: on an accepted cycle the orientation is roll = sample roll in radians,
pitch = minus the sample pitch in radians, yaw = the normalization of
(90° - heading) in radians; heading 0° gives yaw = π/2, heading 90° gives
yaw = 0, and the yaw always lies in (-π, π]. -/
theorem getOdom_orientation (utm : ℚ → ℚ → ℚ × ℚ) (gear : Gear)
    (st : DriverState) (pkts : List applanix_data_t)
    (p0 : Position3D) (t0 : ℕ)
    (hacc : (getNewData st.last_time st.adata pkts).1 = true) :
    (getOdom utm gear st pkts p0 t0).odom_pos3d.pos.roll =
      from_degrees ((getNewData st.last_time st.adata pkts).2.2.grp1.roll) ∧
    (getOdom utm gear st pkts p0 t0).odom_pos3d.pos.pitch =
      from_degrees (-((getNewData st.last_time st.adata pkts).2.2.grp1.pitch)) ∧
    (getOdom utm gear st pkts p0 t0).odom_pos3d.pos.yaw =
      normalize_angle (from_degrees
        (90 - (getNewData st.last_time st.adata pkts).2.2.grp1.heading)) ∧
    ((getNewData st.last_time st.adata pkts).2.2.grp1.heading = 0 →
      (getOdom utm gear st pkts p0 t0).odom_pos3d.pos.yaw = π / 2) ∧
    ((getNewData st.last_time st.adata pkts).2.2.grp1.heading = 90 →
      (getOdom utm gear st pkts p0 t0).odom_pos3d.pos.yaw = 0) ∧
    (getOdom utm gear st pkts p0 t0).odom_pos3d.pos.yaw ∈ Set.Ioc (-π) π := by
  have key :
      (getOdom utm gear st pkts p0 t0).odom_pos3d.pos.roll =
        from_degrees ((getNewData st.last_time st.adata pkts).2.2.grp1.roll) ∧
      (getOdom utm gear st pkts p0 t0).odom_pos3d.pos.pitch =
        from_degrees (-((getNewData st.last_time st.adata pkts).2.2.grp1.pitch)) ∧
      (getOdom utm gear st pkts p0 t0).odom_pos3d.pos.yaw =
        normalize_angle (from_degrees
          (90 - (getNewData st.last_time st.adata pkts).2.2.grp1.heading)) := by
    by_cases hfp : st.gtl.first_pose_received
    · refine ⟨?_, ?_, ?_⟩ <;>
        simp [getOdom, hacc, GlobalToLocal_flag, GlobalToLocal, hfp]
    · refine ⟨?_, ?_, ?_⟩ <;>
        simp [getOdom, hacc, GlobalToLocal_flag, GlobalToLocal, hfp]
  refine ⟨key.1, key.2.1, key.2.2, ?_, ?_, ?_⟩
  · intro h0
    rw [key.2.2, h0]
    norm_num
    rw [from_degrees_90]
    exact normalize_angle_eq_self _ (by linarith [pi_pos]) (by linarith [pi_pos])
  · intro h90
    rw [key.2.2, h90]
    norm_num
    rw [from_degrees_zero]
    exact normalize_angle_eq_self 0 (by linarith [pi_pos]) (le_of_lt pi_pos)
  · rw [key.2.2]
    exact normalize_angle_mem_Ioc _

/-- C6 witness: heading 0° yields yaw π/2, heading 90° yields yaw 0, and the
yaw lies in the canonical range, at a concrete accepted sample. -/
theorem getOdom_orientation_witness :
    (getNewData st0.last_time st0.adata [samplePkt]).1 = true ∧
    (getOdom utm0 Gear.Drive st0 [samplePkt] pose0 0).odom_pos3d.pos.yaw = π / 2 ∧
    (getOdom utm0 Gear.Drive st0
        [{ samplePkt with
            grp1 := { samplePkt.grp1 with heading := 90 } }] pose0 0).odom_pos3d.pos.yaw
      = 0 ∧
    (getOdom utm0 Gear.Drive st0 [samplePkt] pose0 0).odom_pos3d.pos.yaw
      ∈ Set.Ioc (-π) π := by
  have hacc1 : (getNewData st0.last_time st0.adata [samplePkt]).1 = true := rfl
  have hacc2 : (getNewData st0.last_time st0.adata
      [{ samplePkt with
          grp1 := { samplePkt.grp1 with heading := 90 } }]).1 = true := rfl
  have h1 := getOdom_orientation utm0 Gear.Drive st0 [samplePkt] pose0 0 hacc1
  have h2 := getOdom_orientation utm0 Gear.Drive st0
    [{ samplePkt with grp1 := { samplePkt.grp1 with heading := 90 } }] pose0 0 hacc2
  exact ⟨hacc1, h1.2.2.2.1 rfl, h2.2.2.2.2.1 rfl, h1.2.2.2.2.2⟩

/-- C9: any GPS record published by `getOdom` has quality GPS-fix with Fine
alignment or DGPS-fix with Full alignment; the Invalid-fix branch of the
quality mapping is never taken because acquisition rejects Invalid samples. -/
theorem getOdom_gps_quality (utm : ℚ → ℚ → ℚ × ℚ) (gear : Gear)
    (st : DriverState) (pkts : List applanix_data_t)
    (p0 : Position3D) (t0 : ℕ) (g : GpsInfo)
    (hg : (getOdom utm gear st pkts p0 t0).gps = some g) :
    (((getNewData st.last_time st.adata pkts).2.2.grp1.alignment
        = ApplStatus.Fine ∧ g.quality = GpsQuality.GPS_FIX) ∨
     ((getNewData st.last_time st.adata pkts).2.2.grp1.alignment
        = ApplStatus.Full ∧ g.quality = GpsQuality.DGPS_FIX)) ∧
    g.quality ≠ GpsQuality.INVALID_FIX := by
  have hacc : (getNewData st.last_time st.adata pkts).1 = true := by
    by_contra hh
    rw [Bool.not_eq_true] at hh
    have : (getOdom utm gear st pkts p0 t0).gps = none := by
      simp [getOdom, hh]
    rw [this] at hg
    exact Option.noConfusion hg
  have halign := getNewData_accept_alignment st.last_time st.adata pkts hacc
  have hsome : (getOdom utm gear st pkts p0 t0).gps =
      some (publishGPS (getNewData st.last_time st.adata pkts).2.2
        (utm ((getNewData st.last_time st.adata pkts).2.2.grp1.lat)
          ((getNewData st.last_time st.adata pkts).2.2.grp1.lon)).1
        (utm ((getNewData st.last_time st.adata pkts).2.2.grp1.lat)
          ((getNewData st.last_time st.adata pkts).2.2.grp1.lon)).2) := by
    simp only [getOdom]
    rw [if_neg (by simp [hacc])]
    split_ifs <;> rfl
  rw [hsome] at hg
  have hgq : g = publishGPS (getNewData st.last_time st.adata pkts).2.2
      (utm ((getNewData st.last_time st.adata pkts).2.2.grp1.lat)
        ((getNewData st.last_time st.adata pkts).2.2.grp1.lon)).1
      (utm ((getNewData st.last_time st.adata pkts).2.2.grp1.lat)
        ((getNewData st.last_time st.adata pkts).2.2.grp1.lon)).2 :=
    (Option.some.inj hg).symm
  subst hgq
  rcases hA : (getNewData st.last_time st.adata pkts).2.2.grp1.alignment with _ | _ | _
  · exact absurd hA halign
  · refine ⟨Or.inl ⟨rfl, ?_⟩, ?_⟩
    · simp [publishGPS, hA]
    · simp [publishGPS, hA]
  · refine ⟨Or.inr ⟨rfl, ?_⟩, ?_⟩
    · simp [publishGPS, hA]
    · simp [publishGPS, hA]

/-- C9 witness: the concrete Fine-alignment sample yields a published GPS
record with quality GPS-fix, not Invalid-fix. -/
theorem getOdom_gps_quality_witness :
    (getOdom utm0 Gear.Drive st0 [samplePkt] pose0 0).gps
      = some (publishGPS samplePkt 3 4) ∧
    (publishGPS samplePkt 3 4).quality = GpsQuality.GPS_FIX ∧
    (publishGPS samplePkt 3 4).quality ≠ GpsQuality.INVALID_FIX := by
  have hg : (getOdom utm0 Gear.Drive st0 [samplePkt] pose0 0).gps
      = some (publishGPS samplePkt 3 4) := rfl
  have h := getOdom_gps_quality utm0 Gear.Drive st0 [samplePkt] pose0 0
    (publishGPS samplePkt 3 4) hg
  exact ⟨hg, by decide, h.2⟩
